import Mathlib

/-!
Verification of the WiseTrade single-asset backtesting core.

The development shallowly embeds the core of the repository in Lean:

* `Bar`                 — database/schema.py, the `Bar` namedtuple;
* `Portfolio`           — core/portfolio.py (buy / sell / sell_all / update / reset);
* `Strategy.sma/atr`    — strategies/base.py indicator helpers over the rolling buffer;
* `Analyzer`            — core/analyzer.py `_calculate_metrics`;
* `Engine`              — core/engine.py `Engine.run`, with the feed of datafeed/db_feed.py.

Python floats are modelled by exact rationals `ℚ` (metric fields that the source
computes with `sqrt`/`**` live in `ℝ`).  Python's `round(x, n)` (banker's
rounding on the decimal value) is modelled by `pyRound`.  Fallible or absent
values (`None`) are modelled by `Option`.
-/

/-- Python's round-half-to-even on a rational, to the nearest integer
(the idealised decimal behaviour of `round` on a clean value). -/
def pyRoundHalfEven (q : ℚ) : ℤ :=
  let fl := ⌊q⌋
  if q - fl < 1/2 then fl
  else if (fl : ℚ) + 1/2 < q then fl + 1
  else if fl % 2 = 0 then fl else fl + 1

/-- Python's `round(q, n)`: round half to even at the `n`-th decimal place. -/
def pyRound (q : ℚ) (n : ℕ) : ℚ :=
  (pyRoundHalfEven (q * 10 ^ n) : ℚ) / 10 ^ n

/-- One OHLCV sample: the `Bar` namedtuple of database/schema.py.
`datetime` is Unix milliseconds UTC.  The field `open` of the source is
spelled `open_` (`open` is a Lean keyword). -/
structure Bar where
  symbol : String
  datetime : ℤ
  open_ : ℚ
  high : ℚ
  low : ℚ
  close : ℚ
  volume : ℚ
deriving DecidableEq

/-- The `"type"` field of a trade-log entry in core/portfolio.py. -/
inductive TradeSide where
  | BUY
  | SELL
deriving DecidableEq

/-- One entry of `Portfolio._trades` (core/portfolio.py).  `datetime` is
`none` while the timestamp is still unresolved (`None` in the source);
`amount` is the `"cost"` field of a BUY and the `"proceeds"` field of a SELL. -/
structure Trade where
  datetime : Option ℤ
  side : TradeSide
  size : ℚ
  price : ℚ
  amount : ℚ
deriving DecidableEq

/-- The mutable state of `Portfolio` (core/portfolio.py, `__init__`):
`history` is `_history` (the equity curve, `(datetime_ms, equity)` pairs) and
`trades` is `_trades` (the full trade log). -/
structure Portfolio where
  min_trade_size : ℚ
  initial_cash : ℚ
  cash : ℚ
  position : ℚ
  entry_price : ℚ
  history : List (ℤ × ℚ)
  trades : List Trade
deriving DecidableEq

namespace Portfolio

/-- `Portfolio.__init__(initial_cash, min_trade_size)`. -/
def init (initial_cash : ℚ := 100000) (min_trade_size : ℚ := 1/10) : Portfolio :=
  { min_trade_size := min_trade_size
    initial_cash := initial_cash
    cash := initial_cash
    position := 0
    entry_price := 0
    history := []
    trades := [] }

/-- `Portfolio.buy(size, price)` of core/portfolio.py: early return on a
non-positive size or price; clamp to affordability `cash / price`; silently
drop a clamped size below `min_trade_size`; otherwise pay `size * price`,
increase the position, set the entry price and append one pending BUY record
(its recorded size is `round(actual_size, 6)` in the source). -/
def buy (p : Portfolio) (size price : ℚ) : Portfolio :=
  if size ≤ 0 ∨ price ≤ 0 then p
  else
    let max_affordable : ℚ := if 0 < price then p.cash / price else 0
    let desired_size : ℚ := min size max_affordable
    if desired_size < p.min_trade_size then p
    else
      let actual_size := desired_size
      let cost := actual_size * price
      { p with
        cash := p.cash - cost
        position := p.position + actual_size
        entry_price := price
        trades := p.trades ++
          [{ datetime := none, side := TradeSide.BUY, size := pyRound actual_size 6,
             price := price, amount := cost }] }

/-- `Portfolio.sell(size, price)` of core/portfolio.py: early return on a
non-positive size, price or position; clamp to the held position; silently
drop a clamped size below `min_trade_size`; otherwise collect the proceeds,
shrink the position (snapping a sub-minimum remainder, float dust, to exactly
zero together with the entry price) and append one pending SELL record. -/
def sell (p : Portfolio) (size price : ℚ) : Portfolio :=
  if size ≤ 0 ∨ price ≤ 0 ∨ p.position ≤ 0 then p
  else
    let sellable : ℚ := min size p.position
    if sellable < p.min_trade_size then p
    else
      let proceeds := sellable * price
      let newPosition := p.position - sellable
      { p with
        cash := p.cash + proceeds
        position := if newPosition < p.min_trade_size then 0 else newPosition
        entry_price := if newPosition < p.min_trade_size then 0 else p.entry_price
        trades := p.trades ++
          [{ datetime := none, side := TradeSide.SELL, size := pyRound sellable 6,
             price := price, amount := proceeds }] }

/-- `Portfolio.sell_all(price)`: close the entire position when one is held
and the price is positive. -/
def sell_all (p : Portfolio) (price : ℚ) : Portfolio :=
  if 0 < p.position ∧ 0 < price then p.sell p.position price else p

/-- The trade-log rewrite performed by `Portfolio.update`: when the log is
non-empty and the datetime of its last record is still `None`, that record
receives the bar's datetime. -/
def resolveLastTrade (trades : List Trade) (dt : ℤ) : List Trade :=
  match trades.getLast? with
  | none => trades
  | some t =>
      if t.datetime = none then trades.dropLast ++ [{ t with datetime := some dt }]
      else trades

/-- `Portfolio.update(bar)` of core/portfolio.py: mark-to-market.  Returns the
new state together with the equity value that the method returns. -/
def update (p : Portfolio) (bar : Bar) : Portfolio × ℚ :=
  let position_value : ℚ := if 0 < p.position then p.position * bar.close else 0
  let current_equity := p.cash + position_value
  ({ p with
      history := p.history ++ [(bar.datetime, current_equity)]
      trades := resolveLastTrade p.trades bar.datetime },
   current_equity)

/-- `Portfolio.total_equity`: the last equity point, falling back to the
initial cash when no bar has been processed. -/
def total_equity (p : Portfolio) : ℚ :=
  match p.history.getLast? with
  | none => p.initial_cash
  | some h => h.2

/-- `Portfolio.reset()` of core/portfolio.py: the source re-runs
`self.__init__(initial_cash=self.initial_cash)`, so `min_trade_size` falls
back to the constructor default `0.1` instead of the configured value. -/
def reset (p : Portfolio) : Portfolio :=
  Portfolio.init p.initial_cash

end Portfolio

/-- One strategy-facing portfolio operation, for stating whole-run
invariants over arbitrary operation sequences. -/
inductive PortfolioOp where
  | buyOp (size price : ℚ)
  | sellOp (size price : ℚ)
  | sellAllOp (price : ℚ)
  | updateOp (bar : Bar)
deriving DecidableEq

/-- Apply one operation to a portfolio (the equity value returned by
`update` is discarded, as the engine discards it for state purposes). -/
def applyOp (p : Portfolio) : PortfolioOp → Portfolio
  | PortfolioOp.buyOp size price => p.buy size price
  | PortfolioOp.sellOp size price => p.sell size price
  | PortfolioOp.sellAllOp price => p.sell_all price
  | PortfolioOp.updateOp bar => (p.update bar).1

namespace Strategy

/-- The rolling-buffer part of a `Strategy` instance (strategies/base.py):
`bar` is `self.bar` (the current bar, `None` before the first one), `history`
is the `deque(maxlen=lookback)` written oldest first, `lookback` is
`params.get('max_lookback', 300)`. -/
structure State where
  bar : Option Bar
  history : List Bar
  lookback : ℕ
deriving DecidableEq

/-- `Strategy.update_bar(bar)`: set the current bar and append it to the
rolling buffer, dropping the oldest elements past the `maxlen` capacity
exactly as `deque(maxlen=...)` does. -/
def State.update_bar (s : State) (b : Bar) : State :=
  let appended := s.history ++ [b]
  { s with bar := some b, history := appended.drop (appended.length - s.lookback) }

/-- `Strategy.sma(period)` of strategies/base.py: `None` with fewer than
`period` observations, otherwise `statistics.mean` of the closes of the last
`period` bars of the buffer.  The inner `if period = 0` mirrors Python's
`list[-0:]`, which is the whole list.  (`statistics.mean` of an empty list
raises in Python; here the total function returns `some 0`, a case no claim
touches since it needs `period = 0` on an empty buffer.) -/
def sma (history : List Bar) (period : ℕ) : Option ℚ :=
  if history.length < period then none
  else
    let closes := ((if period = 0 then history
                    else history.drop (history.length - period)).map Bar.close)
    some (closes.sum / closes.length)

/-- The true range of a bar given its predecessor:
`max(high - low, |high - prev_close|, |low - prev_close|)`. -/
def trueRange (prev curr : Bar) : ℚ :=
  max (curr.high - curr.low) (max |curr.high - prev.close| |curr.low - prev.close|)

/-- The list of true ranges of consecutive bars, one per bar with a
predecessor (the `for i in range(1, len(recent_bars))` loop of `Strategy.atr`). -/
def trueRanges : List Bar → List ℚ
  | [] => []
  | [_] => []
  | prev :: curr :: rest => trueRange prev curr :: trueRanges (curr :: rest)

/-- `Strategy.atr(period)` of strategies/base.py: `None` with fewer than
`period + 1` observations, otherwise `statistics.mean` of the true ranges of
the last `period + 1` bars. -/
def atr (history : List Bar) (period : ℕ) : Option ℚ :=
  if history.length < period + 1 then none
  else
    let recent_bars := history.drop (history.length - (period + 1))
    let true_ranges := trueRanges recent_bars
    some (true_ranges.sum / true_ranges.length)

end Strategy

namespace Analyzer

/-- The realized-P&L replay of `Analyzer._calculate_metrics` (core/analyzer.py):
walk the trade log keeping a running position and entry price; a BUY moves
the position up and overwrites the entry price; a SELL while the running
position is positive realizes `(sell price - entry price) * sold size`. -/
def realizedPnlAux : List Trade → ℚ → ℚ → List ℚ
  | [], _, _ => []
  | t :: rest, position, entry_price =>
      match t.side with
      | TradeSide.BUY => realizedPnlAux rest (position + t.size) t.price
      | TradeSide.SELL =>
          if 0 < position then
            (t.price - entry_price) * t.size :: realizedPnlAux rest (position - t.size) entry_price
          else realizedPnlAux rest position entry_price

/-- The realized trade outcomes of a trade log (replay from a flat start). -/
def realizedPnl (trades : List Trade) : List ℚ :=
  realizedPnlAux trades 0 0

/-- `wins`: the positive realized outcomes. -/
def wins (trades : List Trade) : List ℚ :=
  (realizedPnl trades).filter (fun x => 0 < x)

/-- `losses`: the absolute values of the non-positive realized outcomes. -/
def losses (trades : List Trade) : List ℚ :=
  ((realizedPnl trades).filter (fun x => x ≤ 0)).map (fun x => |x|)

/-- `gross_profit = sum(wins)` (`0` for no wins, as `sum([]) = 0`). -/
def grossProfit (trades : List Trade) : ℚ :=
  (wins trades).sum

/-- `gross_loss = sum(losses)`. -/
def grossLoss (trades : List Trade) : ℚ :=
  (losses trades).sum

/-- `win_rate = len(wins) / len(realized_pnl) * 100 if realized_pnl else 0`. -/
def winRatePct (trades : List Trade) : ℚ :=
  if realizedPnl trades = [] then 0
  else ((wins trades).length : ℚ) / ((realizedPnl trades).length : ℚ) * 100

/-- The raw `profit_factor` value of `_calculate_metrics`: `0.0` when the
trade log is empty (the `else` of `if num_trades > 0`), the quotient when
`gross_loss > 0`, and `none` standing for the source's `np.inf` otherwise. -/
def profitFactorRaw (trades : List Trade) : Option ℚ :=
  if trades = [] then some 0
  else if 0 < grossLoss trades then some (grossProfit trades / grossLoss trades)
  else none

/-- The `"profit_factor"` entry of the metrics dict:
`round(profit_factor, 3) if np.isfinite(profit_factor) else 0.0`. -/
def profitFactorReported (trades : List Trade) : ℚ :=
  match profitFactorRaw trades with
  | some x => pyRound x 3
  | none => 0

/-- The running-peak drawdown values `(equity - cummax) / cummax`, given the
peak so far. -/
def drawdownAux (peak : ℚ) : List ℚ → List ℚ
  | [] => []
  | e :: rest =>
      let pk := max peak e
      (e - pk) / pk :: drawdownAux pk rest

/-- The drawdown series of an equity list (pandas `cummax` then
`(equity - peak) / peak`). -/
def drawdowns : List ℚ → List ℚ
  | [] => []
  | e :: rest => drawdownAux e (e :: rest)

/-- The minimum of a list, with a default for the empty list. -/
def listMinD (l : List ℚ) (d : ℚ) : ℚ :=
  match l with
  | [] => d
  | x :: xs => xs.foldl min x

/-- The metrics dictionary of `Analyzer._calculate_metrics`.  The fields
that the source computes with `sqrt` / fractional powers live in `ℝ`; the
purely rational ones are carried as casts of exact values.  `years` is
`none` on the degenerate (empty equity curve) branch, whose dict has no
`"years"` key.  (`symbol`, `strategy` and `bar_count` are still their
`__init__` placeholders when `_calculate_metrics` runs and are not part of
this structure.) -/
structure Metrics where
  total_return_pct : ℝ
  total_equity : ℝ
  cagr_pct : ℝ
  sharpe : ℝ
  volatility_annualized : ℝ
  max_drawdown_pct : ℝ
  num_trades : ℕ
  win_rate_pct : ℝ
  profit_factor : ℝ
  years : Option ℝ

/-- Python's `round(x, n)` on the real-valued metrics (round half to even at
the `n`-th decimal place). -/
noncomputable def pyRoundR (x : ℝ) (n : ℕ) : ℝ :=
  let y := x * 10 ^ n
  let fl := ⌊y⌋
  let r : ℤ :=
    if y - fl < 1/2 then fl
    else if (fl : ℝ) + 1/2 < y then fl + 1
    else if fl % 2 = 0 then fl else fl + 1
  (r : ℝ) / 10 ^ n

/-- `Analyzer._calculate_metrics` (core/analyzer.py) as a pure function of
the finished portfolio.  The empty-equity-curve branch returns the fixed
degenerate dict.  Otherwise: total return from the last equity point; the
elapsed years from the first and last curve timestamps (365.25-day years,
floored at `1e-6`); CAGR via a fractional power; sharpe and annualized
volatility from the 1-minute percentage-change series (pandas sample
standard deviation, `252 * 390` minutes per year, both `0.0` unless more
than one return exists); max drawdown from the running peak; and the trade
statistics of the replay above.  Rounding mirrors the source's dict. -/
noncomputable def computeMetrics (p : Portfolio) : Metrics :=
  if p.history = [] then
    { total_return_pct := 0
      total_equity := (p.initial_cash : ℝ)
      cagr_pct := 0
      sharpe := 0
      volatility_annualized := 0
      max_drawdown_pct := 0
      num_trades := 0
      win_rate_pct := 0
      profit_factor := 0
      years := none }
  else
    let equities : List ℚ := p.history.map Prod.snd
    let initial : ℚ := p.initial_cash
    let final : ℚ := (p.history.getLastD (0, 0)).2
    let total_return_pct : ℚ := (final / initial - 1) * 100
    let start_ms : ℤ := (p.history.headD (0, 0)).1
    let end_ms : ℤ := (p.history.getLastD (0, 0)).1
    let years : ℚ := max (((end_ms - start_ms : ℤ) : ℚ) / 31557600000) (1/1000000)
    let cagr_pct : ℝ := (((final / initial : ℚ) : ℝ) ^ ((1 : ℝ) / (years : ℝ)) - 1) * 100
    let returns : List ℚ := (equities.zip equities.tail).map (fun ab => ab.2 / ab.1 - 1)
    let nR : ℕ := returns.length
    let mean_return : ℚ := returns.sum / (nR : ℚ)
    let std_return : ℝ :=
      Real.sqrt (((returns.map (fun r => (r - mean_return) ^ 2)).sum / ((nR : ℚ) - 1) : ℚ))
    let annualization : ℝ := Real.sqrt (252 * 390)
    let volatility_annual : ℝ := if 1 < nR then std_return * annualization else 0
    let sharpe : ℝ :=
      if 1 < nR then
        (if 0 < std_return then ((mean_return : ℝ) / std_return) * annualization else 0)
      else 0
    let max_dd : ℚ := listMinD (drawdowns equities) 0 * 100
    { total_return_pct := ((pyRound total_return_pct 3 : ℚ) : ℝ)
      total_equity := ((pyRound final 2 : ℚ) : ℝ)
      cagr_pct := pyRoundR cagr_pct 3
      sharpe := pyRoundR sharpe 3
      volatility_annualized := pyRoundR (volatility_annual * 100) 3
      max_drawdown_pct := ((pyRound max_dd 3 : ℚ) : ℝ)
      num_trades := p.trades.length
      win_rate_pct := ((pyRound (winRatePct p.trades) 2 : ℚ) : ℝ)
      profit_factor := ((profitFactorReported p.trades : ℚ) : ℝ)
      years := some ((pyRound years 3 : ℚ) : ℝ) }

end Analyzer

namespace Engine

/-- The per-run accumulator of the engine's main loop: the strategy's own
state `strat` (its class-specific fields), the rolling-buffer state, the
portfolio, and the bar counter. -/
structure RunState (τ : Type) where
  strat : τ
  sstate : Strategy.State
  portfolio : Portfolio
  barCount : ℕ

/-- One iteration of the main event-driven loop of `Engine.run`
(core/engine.py): `strategy.update_bar(bar)`, then `strategy.next(bar)`
(an arbitrary pure decision function `stratNext`, which may trade on the
portfolio), then `portfolio.update(bar)`. -/
def step {τ : Type}
    (stratNext : τ → Strategy.State → Bar → Portfolio → τ × Portfolio)
    (acc : RunState τ) (bar : Bar) : RunState τ :=
  let s := acc.sstate.update_bar bar
  let tp := stratNext acc.strat s bar acc.portfolio
  let p := (tp.2.update bar).1
  { strat := tp.1, sstate := s, portfolio := p, barCount := acc.barCount + 1 }

/-- `Engine.run` (core/engine.py) over an explicit bar list: construct a
fresh strategy state and portfolio, run the loop over the bars, then invoke
the base-class `Strategy.on_end` (strategies/base.py), which liquidates an
open long position at the last seen close when a bar has been seen
(`self.bar` is not `None`).  `on_start` of the base class is a no-op.
Returns the finished portfolio and the number of bars processed. -/
def runBars {τ : Type}
    (stratNext : τ → Strategy.State → Bar → Portfolio → τ × Portfolio)
    (t0 : τ) (lookback : ℕ) (bars : List Bar)
    (initial_cash min_trade_size : ℚ) : Portfolio × ℕ :=
  let s0 : Strategy.State := { bar := none, history := [], lookback := lookback }
  let start : RunState τ :=
    { strat := t0, sstate := s0,
      portfolio := Portfolio.init initial_cash min_trade_size, barCount := 0 }
  let fin := bars.foldl (step stratNext) start
  let p := fin.portfolio
  let pEnd :=
    match fin.sstate.bar with
    | some b => if 0 < p.position then p.sell_all b.close else p
    | none => p
  (pEnd, fin.barCount)

end Engine

/-- The row filter and ordering of `SQLiteFeed._setup_connection_and_query`
(datafeed/db_feed.py): rows of the `bars` table with the feed's symbol,
inside the optional inclusive `[start, end]` range, ordered by ascending
datetime. -/
def queryBars (db : List Bar) (sym : String) (sdt edt : Option ℤ) : List Bar :=
  (db.filter (fun b =>
      decide (b.symbol = sym) &&
        (match sdt with | some s => decide (s ≤ b.datetime) | none => true) &&
        (match edt with | some e => decide (b.datetime ≤ e) | none => true))).mergeSort
    (fun a b => decide (a.datetime ≤ b.datetime))

/-- `SQLiteFeed` (datafeed/db_feed.py): `db` stands for the rows of the
`bars` table behind the connection, and `cursor` for the not-yet-consumed
rest of the streaming query's result. -/
structure SQLiteFeed where
  db : List Bar
  symbol : String
  start_datetime : Option ℤ
  end_datetime : Option ℤ
  cursor : List Bar

/-- `SQLiteFeed.__init__`: upper-case the symbol and run the streaming
query. -/
def SQLiteFeed.make (db : List Bar) (symbol : String) (sdt edt : Option ℤ) : SQLiteFeed :=
  { db := db
    symbol := symbol.toUpper
    start_datetime := sdt
    end_datetime := edt
    cursor := queryBars db symbol.toUpper sdt edt }

/-- `SQLiteFeed.rewind()`: close and re-run the query — iteration restarts
from the first matching row of the same table. -/
def SQLiteFeed.rewind (f : SQLiteFeed) : SQLiteFeed :=
  { f with cursor := queryBars f.db f.symbol f.start_datetime f.end_datetime }

namespace Engine

/-- `Engine.run` driven by a feed: consume the feed's remaining rows to
exhaustion, build the `Analyzer` over the finished portfolio, and return its
metrics together with the exhausted feed. -/
noncomputable def runFeed {τ : Type}
    (stratNext : τ → Strategy.State → Bar → Portfolio → τ × Portfolio)
    (t0 : τ) (lookback : ℕ) (f : SQLiteFeed)
    (initial_cash min_trade_size : ℚ) : Analyzer.Metrics × SQLiteFeed :=
  (Analyzer.computeMetrics (runBars stratNext t0 lookback f.cursor initial_cash min_trade_size).1,
   { f with cursor := [] })

end Engine

/-! ## Execution-shape lemmas for `buy` and `sell` -/

lemma Portfolio.buy_of_nonpos (p : Portfolio) (size price : ℚ)
    (h : size ≤ 0 ∨ price ≤ 0) : p.buy size price = p := by
  simp only [Portfolio.buy, if_pos h]

lemma Portfolio.buy_of_small (p : Portfolio) (size price : ℚ)
    (hs : 0 < size) (hp : 0 < price)
    (h : min size (p.cash / price) < p.min_trade_size) : p.buy size price = p := by
  have hg : ¬(size ≤ 0 ∨ price ≤ 0) := by
    push_neg
    exact ⟨hs, hp⟩
  simp only [Portfolio.buy, if_neg hg, if_pos hp, if_pos h]

lemma Portfolio.buy_of_fill (p : Portfolio) (size price : ℚ)
    (hs : 0 < size) (hp : 0 < price)
    (h : p.min_trade_size ≤ min size (p.cash / price)) :
    p.buy size price =
      { p with
        cash := p.cash - min size (p.cash / price) * price
        position := p.position + min size (p.cash / price)
        entry_price := price
        trades := p.trades ++
          [{ datetime := none, side := TradeSide.BUY,
             size := pyRound (min size (p.cash / price)) 6,
             price := price, amount := min size (p.cash / price) * price }] } := by
  have hg : ¬(size ≤ 0 ∨ price ≤ 0) := by
    push_neg
    exact ⟨hs, hp⟩
  simp only [Portfolio.buy, if_neg hg, if_pos hp, if_neg (not_lt.2 h)]

lemma Portfolio.sell_of_nonpos (p : Portfolio) (size price : ℚ)
    (h : size ≤ 0 ∨ price ≤ 0 ∨ p.position ≤ 0) : p.sell size price = p := by
  simp only [Portfolio.sell, if_pos h]

lemma Portfolio.sell_of_small (p : Portfolio) (size price : ℚ)
    (hs : 0 < size) (hp : 0 < price) (hpos : 0 < p.position)
    (h : min size p.position < p.min_trade_size) : p.sell size price = p := by
  have hg : ¬(size ≤ 0 ∨ price ≤ 0 ∨ p.position ≤ 0) := by
    push_neg
    exact ⟨hs, hp, hpos⟩
  simp only [Portfolio.sell, if_neg hg, if_pos h]

lemma Portfolio.sell_of_fill (p : Portfolio) (size price : ℚ)
    (hs : 0 < size) (hp : 0 < price) (hpos : 0 < p.position)
    (h : p.min_trade_size ≤ min size p.position) :
    p.sell size price =
      { p with
        cash := p.cash + min size p.position * price
        position :=
          if p.position - min size p.position < p.min_trade_size then 0
          else p.position - min size p.position
        entry_price :=
          if p.position - min size p.position < p.min_trade_size then 0
          else p.entry_price
        trades := p.trades ++
          [{ datetime := none, side := TradeSide.SELL,
             size := pyRound (min size p.position) 6,
             price := price, amount := min size p.position * price }] } := by
  have hg : ¬(size ≤ 0 ∨ price ≤ 0 ∨ p.position ≤ 0) := by
    push_neg
    exact ⟨hs, hp, hpos⟩
  simp only [Portfolio.sell, if_neg hg, if_neg (not_lt.2 h)]

/-! ## Nonnegativity preservation -/

lemma Portfolio.buy_nonneg (p : Portfolio) (hc : 0 ≤ p.cash) (hpos : 0 ≤ p.position)
    (size price : ℚ) : 0 ≤ (p.buy size price).cash ∧ 0 ≤ (p.buy size price).position := by
  by_cases hg : size ≤ 0 ∨ price ≤ 0
  · rw [Portfolio.buy_of_nonpos p size price hg]
    exact ⟨hc, hpos⟩
  · push_neg at hg
    obtain ⟨hs, hp⟩ := hg
    by_cases hsm : min size (p.cash / price) < p.min_trade_size
    · rw [Portfolio.buy_of_small p size price hs hp hsm]
      exact ⟨hc, hpos⟩
    · rw [Portfolio.buy_of_fill p size price hs hp (not_lt.1 hsm)]
      have hfill_nonneg : 0 ≤ min size (p.cash / price) :=
        le_min hs.le (div_nonneg hc hp.le)
      constructor
      · have hle : min size (p.cash / price) * price ≤ (p.cash / price) * price :=
          mul_le_mul_of_nonneg_right (min_le_right _ _) hp.le
        have hcancel : p.cash / price * price = p.cash := div_mul_cancel₀ p.cash hp.ne'
        simp only
        linarith
      · simp only
        linarith

lemma Portfolio.sell_nonneg (p : Portfolio) (hc : 0 ≤ p.cash) (hpos : 0 ≤ p.position)
    (size price : ℚ) : 0 ≤ (p.sell size price).cash ∧ 0 ≤ (p.sell size price).position := by
  by_cases hg : size ≤ 0 ∨ price ≤ 0 ∨ p.position ≤ 0
  · rw [Portfolio.sell_of_nonpos p size price hg]
    exact ⟨hc, hpos⟩
  · push_neg at hg
    obtain ⟨hs, hp, hpos0⟩ := hg
    by_cases hsm : min size p.position < p.min_trade_size
    · rw [Portfolio.sell_of_small p size price hs hp hpos0 hsm]
      exact ⟨hc, hpos⟩
    · rw [Portfolio.sell_of_fill p size price hs hp hpos0 (not_lt.1 hsm)]
      have hfill_nonneg : 0 ≤ min size p.position := le_min hs.le hpos0.le
      constructor
      · simp only
        nlinarith
      · simp only
        split
        · exact le_refl 0
        · have := min_le_right size p.position
          linarith

lemma Portfolio.sell_all_nonneg (p : Portfolio) (hc : 0 ≤ p.cash) (hpos : 0 ≤ p.position)
    (price : ℚ) : 0 ≤ (p.sell_all price).cash ∧ 0 ≤ (p.sell_all price).position := by
  by_cases h : 0 < p.position ∧ 0 < price
  · rw [Portfolio.sell_all, if_pos h]
    exact Portfolio.sell_nonneg p hc hpos p.position price
  · rw [Portfolio.sell_all, if_neg h]
    exact ⟨hc, hpos⟩

lemma Portfolio.update_fst_cash (p : Portfolio) (bar : Bar) :
    (p.update bar).1.cash = p.cash := rfl

lemma Portfolio.update_fst_position (p : Portfolio) (bar : Bar) :
    (p.update bar).1.position = p.position := rfl

lemma applyOp_nonneg (p : Portfolio) (hc : 0 ≤ p.cash) (hpos : 0 ≤ p.position)
    (op : PortfolioOp) : 0 ≤ (applyOp p op).cash ∧ 0 ≤ (applyOp p op).position := by
  cases op with
  | buyOp size price => exact Portfolio.buy_nonneg p hc hpos size price
  | sellOp size price => exact Portfolio.sell_nonneg p hc hpos size price
  | sellAllOp price => exact Portfolio.sell_all_nonneg p hc hpos price
  | updateOp bar =>
      rw [applyOp, Portfolio.update_fst_cash, Portfolio.update_fst_position]
      exact ⟨hc, hpos⟩

/-- C1: starting from a freshly constructed portfolio with nonnegative
initial cash, every sequence of `buy` / `sell` / `sell_all` / `update`
operations keeps `cash ≥ 0` and `position ≥ 0` (buys are clamped to
affordability, sells to the held position). -/
theorem portfolio_cash_position_nonneg (initial_cash min_trade_size : ℚ)
    (h0 : 0 ≤ initial_cash) (ops : List PortfolioOp) :
    0 ≤ (ops.foldl applyOp (Portfolio.init initial_cash min_trade_size)).cash ∧
    0 ≤ (ops.foldl applyOp (Portfolio.init initial_cash min_trade_size)).position := by
  have main : ∀ (l : List PortfolioOp) (p : Portfolio), 0 ≤ p.cash → 0 ≤ p.position →
      0 ≤ (l.foldl applyOp p).cash ∧ 0 ≤ (l.foldl applyOp p).position := by
    intro l
    induction l with
    | nil =>
        intro p hc hp
        exact ⟨hc, hp⟩
    | cons op rest ih =>
        intro p hc hp
        have h := applyOp_nonneg p hc hp op
        simpa using ih (applyOp p op) h.1 h.2
  exact main ops (Portfolio.init initial_cash min_trade_size) h0 (le_refl 0)

/-- Witness for C1: a concrete buy / update / sell-all run from cash 100000. -/
theorem portfolio_cash_position_nonneg_witness :
    0 ≤ (([PortfolioOp.buyOp 10 5,
           PortfolioOp.updateOp { symbol := "AAPL", datetime := 1, open_ := 5, high := 6,
                                  low := 4, close := 5, volume := 10 },
           PortfolioOp.sellAllOp 6]).foldl applyOp (Portfolio.init 100000 1)).cash ∧
    0 ≤ (([PortfolioOp.buyOp 10 5,
           PortfolioOp.updateOp { symbol := "AAPL", datetime := 1, open_ := 5, high := 6,
                                  low := 4, close := 5, volume := 10 },
           PortfolioOp.sellAllOp 6]).foldl applyOp (Portfolio.init 100000 1)).position :=
  portfolio_cash_position_nonneg 100000 1 (by norm_num) _

/-- C2: with a positive size and price, `buy` fills exactly
`min(size, cash_before / price)`; a clamped size below `min_trade_size`
leaves the portfolio unchanged, otherwise cash drops by `fill * price`,
the position grows by `fill`, the entry price becomes the fill price and
exactly one pending BUY record is appended (the equity curve is untouched).
The recorded size is the fill rounded to 6 decimals, as in the source. -/
theorem buy_fill_spec (p : Portfolio) (size price : ℚ)
    (hs : 0 < size) (hp : 0 < price) :
    (min size (p.cash / price) < p.min_trade_size → p.buy size price = p) ∧
    (p.min_trade_size ≤ min size (p.cash / price) →
      (p.buy size price).cash = p.cash - min size (p.cash / price) * price ∧
      (p.buy size price).position = p.position + min size (p.cash / price) ∧
      (p.buy size price).entry_price = price ∧
      (p.buy size price).trades = p.trades ++
        [{ datetime := none, side := TradeSide.BUY,
           size := pyRound (min size (p.cash / price)) 6,
           price := price, amount := min size (p.cash / price) * price }] ∧
      (p.buy size price).history = p.history ∧
      (p.buy size price).min_trade_size = p.min_trade_size ∧
      (p.buy size price).initial_cash = p.initial_cash) := by
  constructor
  · intro h
    exact Portfolio.buy_of_small p size price hs hp h
  · intro h
    rw [Portfolio.buy_of_fill p size price hs hp h]
    exact ⟨rfl, rfl, rfl, rfl, rfl, rfl, rfl⟩

/-- Witness for C2, the spec's scenario: a BUY of 1,000,000 shares at price
100 with cash 100,000 fills exactly 1,000 shares and leaves cash exactly 0. -/
theorem buy_fill_spec_witness :
    (Portfolio.buy (Portfolio.init 100000 (1/10)) 1000000 100).cash = 0 ∧
    (Portfolio.buy (Portfolio.init 100000 (1/10)) 1000000 100).position = 1000 := by
  have h := (buy_fill_spec (Portfolio.init 100000 (1/10)) 1000000 100
      (by norm_num) (by norm_num)).2 (by norm_num [Portfolio.init, min_def])
  constructor
  · rw [h.1]
    norm_num [Portfolio.init, min_def]
  · rw [h.2.1]
    norm_num [Portfolio.init, min_def]

/-- C3: with a positive size and price and a positive held position, `sell`
fills exactly `min(size, position_before)`; a clamped size below
`min_trade_size` leaves the portfolio unchanged, otherwise cash grows by
`fill * price`, the position shrinks by `fill` — snapping to exactly zero
(with the entry price reset to zero) when the remainder falls below
`min_trade_size` — and exactly one pending SELL record is appended. -/
theorem sell_fill_spec (p : Portfolio) (size price : ℚ)
    (hs : 0 < size) (hp : 0 < price) (hpos : 0 < p.position) :
    (min size p.position < p.min_trade_size → p.sell size price = p) ∧
    (p.min_trade_size ≤ min size p.position →
      (p.sell size price).cash = p.cash + min size p.position * price ∧
      (p.sell size price).trades = p.trades ++
        [{ datetime := none, side := TradeSide.SELL,
           size := pyRound (min size p.position) 6,
           price := price, amount := min size p.position * price }] ∧
      (p.sell size price).history = p.history ∧
      (p.position - min size p.position < p.min_trade_size →
        (p.sell size price).position = 0 ∧ (p.sell size price).entry_price = 0) ∧
      (p.min_trade_size ≤ p.position - min size p.position →
        (p.sell size price).position = p.position - min size p.position ∧
        (p.sell size price).entry_price = p.entry_price)) := by
  constructor
  · intro h
    exact Portfolio.sell_of_small p size price hs hp hpos h
  · intro h
    rw [Portfolio.sell_of_fill p size price hs hp hpos h]
    refine ⟨rfl, rfl, rfl, ?_, ?_⟩
    · intro hsnap
      constructor
      · simp only [if_pos hsnap]
      · simp only [if_pos hsnap]
    · intro hkeep
      constructor
      · simp only [if_neg (not_lt.2 hkeep)]
      · simp only [if_neg (not_lt.2 hkeep)]

/-- Witness for C3: selling 40 of a held 100 at price 11 banks 440 of cash. -/
theorem sell_fill_spec_witness :
    (Portfolio.sell
      { min_trade_size := 1, initial_cash := 100000, cash := 99000, position := 100,
        entry_price := 10, history := [], trades := [] } 40 11).cash = 99440 := by
  have h := (sell_fill_spec
      { min_trade_size := 1, initial_cash := 100000, cash := 99000, position := 100,
        entry_price := 10, history := [], trades := [] } 40 11
      (by norm_num) (by norm_num) (by norm_num)).2 (by norm_num [min_def])
  rw [h.1]
  norm_num [min_def]

/-- C4: `update(bar)` returns `cash + position * bar.close` (for the
`position ≥ 0` states the ledger maintains), appends exactly that one
equity point, leaves cash, position, entry price and all earlier trade
records unchanged, and resolves the datetime of the most recent trade
record exactly when it is still pending. -/
theorem update_mark_to_market_spec (p : Portfolio) (bar : Bar) (hpos : 0 ≤ p.position) :
    (p.update bar).2 = p.cash + p.position * bar.close ∧
    (p.update bar).1.history = p.history ++ [(bar.datetime, p.cash + p.position * bar.close)] ∧
    (p.update bar).1.cash = p.cash ∧
    (p.update bar).1.position = p.position ∧
    (p.update bar).1.entry_price = p.entry_price ∧
    (p.update bar).1.min_trade_size = p.min_trade_size ∧
    (p.update bar).1.initial_cash = p.initial_cash ∧
    (p.update bar).1.trades.dropLast = p.trades.dropLast ∧
    ((p.update bar).1.trades.getLast? =
      match p.trades.getLast? with
      | none => none
      | some t =>
          some (if t.datetime = none then { t with datetime := some bar.datetime } else t)) := by
  have hval : (if 0 < p.position then p.position * bar.close else 0) =
      p.position * bar.close := by
    rcases lt_or_eq_of_le hpos with h | h
    · rw [if_pos h]
    · rw [if_neg (by rw [← h]; exact lt_irrefl 0), ← h, zero_mul]
  have hresolve : Portfolio.resolveLastTrade p.trades bar.datetime =
      (p.update bar).1.trades := rfl
  refine ⟨?_, ?_, rfl, rfl, rfl, rfl, rfl, ?_, ?_⟩
  · show p.cash + (if 0 < p.position then p.position * bar.close else 0) = _
    rw [hval]
  · show p.history ++ [(bar.datetime, p.cash + (if 0 < p.position then p.position * bar.close else 0))] = _
    rw [hval]
  · show (Portfolio.resolveLastTrade p.trades bar.datetime).dropLast = p.trades.dropLast
    rcases List.eq_nil_or_concat p.trades with hnil | ⟨l, a, hl⟩
    · rw [hnil]
      rfl
    · rw [hl]
      by_cases hdt : a.datetime = none
      · simp [Portfolio.resolveLastTrade, List.getLast?_concat, hdt]
      · simp [Portfolio.resolveLastTrade, List.getLast?_concat, hdt]
  · show (Portfolio.resolveLastTrade p.trades bar.datetime).getLast? = _
    rcases List.eq_nil_or_concat p.trades with hnil | ⟨l, a, hl⟩
    · rw [hnil]
      rfl
    · rw [hl]
      by_cases hdt : a.datetime = none
      · simp [Portfolio.resolveLastTrade, List.getLast?_concat, hdt]
      · simp [Portfolio.resolveLastTrade, List.getLast?_concat, hdt]

/-- Witness for C4: marking to market at close 10 with cash 99000 and
position 100 yields equity 100000 and stamps the pending BUY record. -/
theorem update_mark_to_market_spec_witness :
    (Portfolio.update
      { min_trade_size := 1, initial_cash := 100000, cash := 99000, position := 100,
        entry_price := 10, history := [],
        trades := [{ datetime := none, side := TradeSide.BUY, size := 100,
                     price := 10, amount := 1000 }] }
      { symbol := "AAPL", datetime := 7, open_ := 10, high := 10, low := 10,
        close := 10, volume := 1 }).2 = 100000 ∧
    (Portfolio.update
      { min_trade_size := 1, initial_cash := 100000, cash := 99000, position := 100,
        entry_price := 10, history := [],
        trades := [{ datetime := none, side := TradeSide.BUY, size := 100,
                     price := 10, amount := 1000 }] }
      { symbol := "AAPL", datetime := 7, open_ := 10, high := 10, low := 10,
        close := 10, volume := 1 }).1.trades.getLast? =
      some { datetime := some 7, side := TradeSide.BUY, size := 100, price := 10,
             amount := 1000 } := by
  have h := update_mark_to_market_spec
      { min_trade_size := 1, initial_cash := 100000, cash := 99000, position := 100,
        entry_price := 10, history := [],
        trades := [{ datetime := none, side := TradeSide.BUY, size := 100,
                     price := 10, amount := 1000 }] }
      { symbol := "AAPL", datetime := 7, open_ := 10, high := 10, low := 10,
        close := 10, volume := 1 } (by norm_num)
  constructor
  · rw [h.1]
    norm_num
  · rw [h.2.2.2.2.2.2.2.2]
    simp

/-- C8: malformed order requests — a buy with non-positive size or price, a
sell with non-positive size, price or held position — leave the whole
portfolio state unchanged (and, being total functions, raise nothing). -/
theorem malformed_orders_are_noops (p : Portfolio) (size price : ℚ) :
    ((size ≤ 0 ∨ price ≤ 0) → p.buy size price = p) ∧
    ((size ≤ 0 ∨ price ≤ 0 ∨ p.position ≤ 0) → p.sell size price = p) :=
  ⟨Portfolio.buy_of_nonpos p size price, Portfolio.sell_of_nonpos p size price⟩

/-- Witness for C8: a buy and a sell with negative size on a flat portfolio. -/
theorem malformed_orders_are_noops_witness :
    Portfolio.buy (Portfolio.init 100000 1) (-1) 5 = Portfolio.init 100000 1 ∧
    Portfolio.sell (Portfolio.init 100000 1) (-1) 5 = Portfolio.init 100000 1 :=
  ⟨(malformed_orders_are_noops (Portfolio.init 100000 1) (-1) 5).1 (Or.inl (by norm_num)),
   (malformed_orders_are_noops (Portfolio.init 100000 1) (-1) 5).2 (Or.inl (by norm_num))⟩

/-- C5: the engine run over an empty feed still finishes: the base-class
`on_end` fires with no bar seen (so it trades nothing), the portfolio is
never mark-to-marketed, no trade exists, zero bars are counted, and the
analyzer's metrics are the documented degenerate set. -/
theorem engine_empty_feed_degenerate {τ : Type}
    (stratNext : τ → Strategy.State → Bar → Portfolio → τ × Portfolio)
    (t0 : τ) (lookback : ℕ) (initial_cash min_trade_size : ℚ) :
    (Engine.runBars stratNext t0 lookback [] initial_cash min_trade_size).1.history = [] ∧
    (Engine.runBars stratNext t0 lookback [] initial_cash min_trade_size).1.trades = [] ∧
    (Engine.runBars stratNext t0 lookback [] initial_cash min_trade_size).2 = 0 ∧
    Analyzer.computeMetrics
        (Engine.runBars stratNext t0 lookback [] initial_cash min_trade_size).1 =
      { total_return_pct := 0
        total_equity := (initial_cash : ℝ)
        cagr_pct := 0
        sharpe := 0
        volatility_annualized := 0
        max_drawdown_pct := 0
        num_trades := 0
        win_rate_pct := 0
        profit_factor := 0
        years := none } := by
  refine ⟨rfl, rfl, rfl, ?_⟩
  have hrun : (Engine.runBars stratNext t0 lookback [] initial_cash min_trade_size).1 =
      Portfolio.init initial_cash min_trade_size := rfl
  rw [hrun]
  have hemp : (Portfolio.init initial_cash min_trade_size).history = [] := rfl
  rw [Analyzer.computeMetrics, if_pos hemp]
  rfl

/-! ## C6 support: lengths of the indicator windows -/

lemma Strategy.trueRanges_length (l : List Bar) :
    (Strategy.trueRanges l).length = l.length - 1 := by
  induction l with
  | nil => rfl
  | cons a t ih =>
      cases t with
      | nil => rfl
      | cons b r =>
          have hb : (Strategy.trueRanges (b :: r)).length = (b :: r).length - 1 := ih
          simp only [Strategy.trueRanges, List.length_cons] at hb ⊢
          omega

/-- C6: `sma(period)` is unavailable exactly when the buffer holds fewer
than `period` observations and otherwise averages the closes of the last
`period` bars; `atr(period)` is unavailable exactly when the buffer holds
fewer than `period + 1` observations and otherwise averages the `period`
true ranges `max(high - low, |high - prev close|, |low - prev close|)`.
Both are plain functions of the buffer contents, so purity (same buffer,
same result) holds definitionally. -/
theorem sma_atr_spec (history : List Bar) (period : ℕ) (hp : 0 < period) :
    (Strategy.sma history period = none ↔ history.length < period) ∧
    (period ≤ history.length →
      Strategy.sma history period =
        some (((history.drop (history.length - period)).map Bar.close).sum / (period : ℚ))) ∧
    (Strategy.atr history period = none ↔ history.length < period + 1) ∧
    (period + 1 ≤ history.length →
      Strategy.atr history period =
        some ((Strategy.trueRanges (history.drop (history.length - (period + 1)))).sum /
          (period : ℚ))) := by
  refine ⟨?_, ?_, ?_, ?_⟩
  · constructor
    · intro h
      by_contra hlen
      rw [Strategy.sma, if_neg hlen] at h
      exact Option.some_ne_none _ h
    · intro h
      rw [Strategy.sma, if_pos h]
  · intro h
    rw [Strategy.sma, if_neg (not_lt.2 h), if_neg hp.ne']
    have hlen : ((history.drop (history.length - period)).map Bar.close).length = period := by
      rw [List.length_map, List.length_drop]
      omega
    dsimp only
    rw [hlen]
  · constructor
    · intro h
      by_contra hlen
      rw [Strategy.atr, if_neg hlen] at h
      exact Option.some_ne_none _ h
    · intro h
      rw [Strategy.atr, if_pos h]
  · intro h
    rw [Strategy.atr, if_neg (not_lt.2 h)]
    have hlen : (Strategy.trueRanges (history.drop (history.length - (period + 1)))).length =
        period := by
      rw [Strategy.trueRanges_length, List.length_drop]
      omega
    dsimp only
    rw [hlen]

/-- Witness for C6: with three buffered bars (high 12, low 8, close 10),
SMA(2) averages the last two closes and ATR(2) averages the two true
ranges. -/
theorem sma_atr_spec_witness :
    Strategy.sma
      [{ symbol := "X", datetime := 1, open_ := 10, high := 12, low := 8, close := 10, volume := 1 },
       { symbol := "X", datetime := 2, open_ := 10, high := 12, low := 8, close := 10, volume := 1 },
       { symbol := "X", datetime := 3, open_ := 10, high := 12, low := 8, close := 10, volume := 1 }] 2 =
      some 10 ∧
    Strategy.atr
      [{ symbol := "X", datetime := 1, open_ := 10, high := 12, low := 8, close := 10, volume := 1 },
       { symbol := "X", datetime := 2, open_ := 10, high := 12, low := 8, close := 10, volume := 1 },
       { symbol := "X", datetime := 3, open_ := 10, high := 12, low := 8, close := 10, volume := 1 }] 2 =
      some 4 := by
  have h := sma_atr_spec
      [{ symbol := "X", datetime := 1, open_ := 10, high := 12, low := 8, close := 10, volume := 1 },
       { symbol := "X", datetime := 2, open_ := 10, high := 12, low := 8, close := 10, volume := 1 },
       { symbol := "X", datetime := 3, open_ := 10, high := 12, low := 8, close := 10, volume := 1 }] 2
      (by norm_num)
  rw [h.2.1 (by simp), h.2.2.2 (by simp)]
  constructor
  · norm_num
  · norm_num [Strategy.trueRanges, Strategy.trueRange]

/-- C7: for a non-empty trade log (on a marked-to-market portfolio, so the
equity curve is non-empty), the analyzer's reported profit factor is the
gross positive realized outcome divided by the absolute gross non-positive
realized outcome (rounded to the documented 3 decimals), and it is exactly
0 — never infinite — when the gross negative total is 0. -/
theorem profit_factor_spec (p : Portfolio) (ht : p.trades ≠ []) (hh : p.history ≠ []) :
    (0 < Analyzer.grossLoss p.trades →
      (Analyzer.computeMetrics p).profit_factor =
        ((pyRound (Analyzer.grossProfit p.trades / Analyzer.grossLoss p.trades) 3 : ℚ) : ℝ)) ∧
    (Analyzer.grossLoss p.trades = 0 →
      (Analyzer.computeMetrics p).profit_factor = 0) := by
  have hpf : (Analyzer.computeMetrics p).profit_factor =
      ((Analyzer.profitFactorReported p.trades : ℚ) : ℝ) := by
    conv_lhs => rw [Analyzer.computeMetrics, if_neg hh]
  constructor
  · intro hgl
    rw [hpf, Analyzer.profitFactorReported, Analyzer.profitFactorRaw, if_neg ht, if_pos hgl]
  · intro hgl
    have hnlt : ¬0 < Analyzer.grossLoss p.trades := by
      rw [hgl]
      exact lt_irrefl 0
    rw [hpf, Analyzer.profitFactorReported, Analyzer.profitFactorRaw, if_neg ht, if_neg hnlt]
    norm_num

/-- Witness for C7: a BUY at 5 then a SELL at 4 realizes one loss of 10, so
the gross loss is positive and the reported profit factor follows the
quotient formula (0/10 here). -/
theorem profit_factor_spec_witness :
    0 < Analyzer.grossLoss
        ({ min_trade_size := 1, initial_cash := 100000, cash := 99990, position := 0,
           entry_price := 0, history := [(1, 100000), (2, 99990)],
           trades := [{ datetime := some 1, side := TradeSide.BUY, size := 10, price := 5, amount := 50 },
                      { datetime := some 2, side := TradeSide.SELL, size := 10, price := 4, amount := 40 }] } :
          Portfolio).trades ∧
    (Analyzer.computeMetrics
        { min_trade_size := 1, initial_cash := 100000, cash := 99990, position := 0,
          entry_price := 0, history := [(1, 100000), (2, 99990)],
          trades := [{ datetime := some 1, side := TradeSide.BUY, size := 10, price := 5, amount := 50 },
                     { datetime := some 2, side := TradeSide.SELL, size := 10, price := 4, amount := 40 }] }).profit_factor =
      ((pyRound
          (Analyzer.grossProfit
              ({ min_trade_size := 1, initial_cash := 100000, cash := 99990, position := 0,
                 entry_price := 0, history := [(1, 100000), (2, 99990)],
                 trades := [{ datetime := some 1, side := TradeSide.BUY, size := 10, price := 5, amount := 50 },
                            { datetime := some 2, side := TradeSide.SELL, size := 10, price := 4, amount := 40 }] } :
                Portfolio).trades /
            Analyzer.grossLoss
              ({ min_trade_size := 1, initial_cash := 100000, cash := 99990, position := 0,
                 entry_price := 0, history := [(1, 100000), (2, 99990)],
                 trades := [{ datetime := some 1, side := TradeSide.BUY, size := 10, price := 5, amount := 50 },
                            { datetime := some 2, side := TradeSide.SELL, size := 10, price := 4, amount := 40 }] } :
                Portfolio).trades) 3 : ℚ) : ℝ) := by
  have hgl : 0 < Analyzer.grossLoss
      ({ min_trade_size := 1, initial_cash := 100000, cash := 99990, position := 0,
         entry_price := 0, history := [(1, 100000), (2, 99990)],
         trades := [{ datetime := some 1, side := TradeSide.BUY, size := 10, price := 5, amount := 50 },
                    { datetime := some 2, side := TradeSide.SELL, size := 10, price := 4, amount := 40 }] } :
        Portfolio).trades := by
    norm_num [Analyzer.grossLoss, Analyzer.losses, Analyzer.realizedPnl, Analyzer.realizedPnlAux]
  exact ⟨hgl,
    (profit_factor_spec
      { min_trade_size := 1, initial_cash := 100000, cash := 99990, position := 0,
        entry_price := 0, history := [(1, 100000), (2, 99990)],
        trades := [{ datetime := some 1, side := TradeSide.BUY, size := 10, price := 5, amount := 50 },
                   { datetime := some 2, side := TradeSide.SELL, size := 10, price := 4, amount := 40 }] }
      (by simp) (by simp)).1 hgl⟩

/-- C9: re-running the engine on the same feed after `rewind`, with the same
strategy decision function, parameters, lookback, initial cash and minimum
trade size, produces identical analyzer metrics: `rewind` re-issues the very
same query over the unchanged table, and the whole pipeline is a pure
function of the queried rows and parameters (a fresh strategy state and a
fresh portfolio are built per run). -/
theorem engine_two_run_determinism {τ : Type}
    (stratNext : τ → Strategy.State → Bar → Portfolio → τ × Portfolio)
    (t0 : τ) (lookback : ℕ) (db : List Bar) (symbol : String) (sdt edt : Option ℤ)
    (initial_cash min_trade_size : ℚ) :
    (Engine.runFeed stratNext t0 lookback (SQLiteFeed.make db symbol sdt edt)
        initial_cash min_trade_size).1 =
    (Engine.runFeed stratNext t0 lookback
        ((Engine.runFeed stratNext t0 lookback (SQLiteFeed.make db symbol sdt edt)
            initial_cash min_trade_size).2.rewind)
        initial_cash min_trade_size).1 := rfl

/-- C10: `reset()` restores cash to the initial cash, empties position,
entry price, trade log and equity curve — but re-runs `__init__` without
forwarding `min_trade_size`, so the configured value `m` is replaced by the
default `0.1`. -/
theorem reset_min_trade_size_default (initial_cash m : ℚ) :
    (Portfolio.init initial_cash m).reset.cash = initial_cash ∧
    (Portfolio.init initial_cash m).reset.initial_cash = initial_cash ∧
    (Portfolio.init initial_cash m).reset.position = 0 ∧
    (Portfolio.init initial_cash m).reset.entry_price = 0 ∧
    (Portfolio.init initial_cash m).reset.trades = [] ∧
    (Portfolio.init initial_cash m).reset.history = [] ∧
    (Portfolio.init initial_cash m).reset.min_trade_size = 1/10 :=
  ⟨rfl, rfl, rfl, rfl, rfl, rfl, rfl⟩
